import Mathlib

/-!
Verification of the jamie-ai audio transcription client.

Shallow embedding of the recorder flush logic (`processChunk` in the
AudioRecorder component), the two transcription services and their factory
(`transcriptionService` / `transcriptionServiceFactory`), and the
`SilenceDetector` utility of `audioProcessing`, together with theorems
checking the documented behavior.

Modelling conventions:
* Timestamps (`Date.now()`-style) are `Nat` milliseconds.
* An audio `Blob` is modelled by its byte size: the recorder and the
  services only ever inspect a blob through its `size` (emptiness and the
  100-byte minimum); concatenating blobs adds the sizes.
* The network side of a `fetch` call is an explicit `HttpResponse`
  argument (ok flag, status code, body text, and the JSON `text` field),
  so the remote service is a pure function of segment and response.
* Volumes handed to the silence detector are rationals.
-/

namespace JamieAI

/-- `TranscriptionResult` from `transcriptionService`: recognized text plus
the time bounds inherited from the originating segment. -/
structure TranscriptionResult where
  text : String
  startTime : Nat
  endTime : Nat
deriving Repr, DecidableEq

/-- `AudioSegment` from `audioProcessing`: the binary payload (modelled by
its byte size) plus absolute start/end timestamps in milliseconds. -/
structure AudioSegment where
  blobSize : Nat
  startTime : Nat
  endTime : Nat
deriving Repr, DecidableEq

/-- The part of a `fetch` response that `WhisperTranscriptionService`
inspects: the `ok` flag, the numeric status, the raw body text (read on
error), and the `text` field of the JSON body (read on success). -/
structure HttpResponse where
  ok : Bool
  status : Nat
  body : String
  textField : String
deriving Repr, DecidableEq

/-- `WhisperTranscriptionService`: holds the configured API key. -/
structure WhisperTranscriptionService where
  apiKey : String
deriving Repr, DecidableEq

/-- `WhisperTranscriptionService.transcribe`: rejects an empty blob, fails
on a non-ok response with the status and body in the message, and on
success returns the response text with the segment's own timestamps
reattached. -/
def WhisperTranscriptionService.transcribe (_svc : WhisperTranscriptionService)
    (audioSegment : AudioSegment) (response : HttpResponse) :
    Except String TranscriptionResult :=
  if audioSegment.blobSize = 0 then
    .error "Empty audio blob"
  else if !response.ok then
    .error ("Transcription failed (" ++ toString response.status ++ "): " ++ response.body)
  else
    .ok { text := response.textField,
          startTime := audioSegment.startTime,
          endTime := audioSegment.endTime }

/-- The mock service's artificial delay: `setTimeout(resolve, 500)`. -/
def mockDelayMs : Nat := 500

/-- Models the host's `new Date(t).toLocaleTimeString()` as a fixed
deterministic rendering of the timestamp; only its determinism in `t`
matters to the claims. -/
def dateToLocaleTimeString (t : Nat) : String := toString t

/-- The placeholder text the mock service synthesizes:
`Math.round(durationMs / 1000)` seconds (JS round-half-up on a
nonnegative value is `(d + 500) / 1000` in `Nat`) and the segment's
start time rendered as a time of day. -/
def mockText (audioSegment : AudioSegment) : String :=
  "This is a mock transcription for " ++
    toString ((audioSegment.endTime - audioSegment.startTime + 500) / 1000) ++
    " seconds of audio recorded at " ++
    dateToLocaleTimeString audioSegment.startTime

/-- `MockTranscriptionService`: stateless. -/
structure MockTranscriptionService : Type
deriving Repr, DecidableEq

/-- `MockTranscriptionService.transcribe`: never fails; returns the fixed
delay it awaits together with the synthesized result carrying the
segment's own timestamps. -/
def MockTranscriptionService.transcribe (_svc : MockTranscriptionService)
    (audioSegment : AudioSegment) : Nat × TranscriptionResult :=
  (mockDelayMs,
   { text := mockText audioSegment,
     startTime := audioSegment.startTime,
     endTime := audioSegment.endTime })

/-- Which service the factory constructed: the mock, or the remote service
configured with an API key. -/
inductive TranscriptionServiceChoice where
  | mock : TranscriptionServiceChoice
  | whisper (apiKey : String) : TranscriptionServiceChoice
deriving Repr, DecidableEq

/-- `createTranscriptionService(apiKey, useMock)` from
`transcriptionService`: explicit mock request wins, a falsy (empty) key
falls back to the mock, otherwise the whisper service is built with the
key. -/
def createTranscriptionService (apiKey : String) (useMock : Bool) :
    TranscriptionServiceChoice :=
  if useMock then .mock
  else if apiKey = "" then .mock
  else .whisper apiKey

/-- `getTranscriptionService()` from `transcriptionServiceFactory`, with
the two environment-derived configuration values passed explicitly
(`NEXT_PUBLIC_OPENAI_API_KEY` defaulting to the empty string, and the
`NEXT_PUBLIC_USE_MOCK_SERVICES === 'true'` flag). -/
def getTranscriptionService (openaiApiKey : String) (useMockService : Bool) :
    TranscriptionServiceChoice :=
  if useMockService then .mock
  else if openaiApiKey = "" then .mock
  else .whisper openaiApiKey

/-- The AudioRecorder component's mutable state: the `isRecording` flag,
whether the repeating chunk timer is installed (`chunkTimerRef`), the
buffered raw fragments (`chunksRef`, each modelled by its byte size),
`startTimeRef`, `lastChunkTimeRef`, `chunkCountRef`, the user-visible
`error`, and the caller's accumulated transcription list (the `page`
component's `transcriptions` state, fed through `onTranscriptionUpdate`). -/
structure RecState where
  isRecording : Bool
  timerActive : Bool
  chunks : List Nat
  startTime : Nat
  lastChunkTime : Nat
  chunkCount : Nat
  error : Option String
  transcriptions : List TranscriptionResult
deriving Repr, DecidableEq

/-- `createAudioBlob`: concatenating the buffered fragments into one blob;
the resulting size is the sum of the fragment sizes (the bytes are
untouched). -/
def createAudioBlob (chunks : List Nat) : Nat := chunks.sum

/-- `lastChunkTimeRef.current || startTimeRef.current`: the start bound of
the segment a flush produces (JS `||` falls through on the falsy 0). -/
def flushStart (s : RecState) : Nat :=
  if s.lastChunkTime = 0 then s.startTime else s.lastChunkTime

/-- The segment a flush of state `s` at `currentTime` builds. -/
def flushSegment (s : RecState) (currentTime : Nat) : AudioSegment :=
  { blobSize := createAudioBlob s.chunks,
    startTime := flushStart s,
    endTime := currentTime }

/-- The debug annotation `processChunk` appends before delivering a
result: `` `${result.text} [Chunk #${chunkCountRef.current}]` ``. -/
def annotateChunk (result : TranscriptionResult) (chunkCount : Nat) :
    TranscriptionResult :=
  { result with text := result.text ++ " [Chunk #" ++ toString chunkCount ++ "]" }

/-- `handleTranscriptionUpdate` in the page component: appends each
delivered result to the accumulated list. -/
def handleTranscriptionUpdate (transcriptions : List TranscriptionResult)
    (result : TranscriptionResult) : List TranscriptionResult :=
  transcriptions ++ [result]

/-- Executable model of JS `String.prototype.trim()`: drop leading and
trailing whitespace (the recorder only ever tests the result for
truthiness, i.e. nonemptiness). -/
def jsTrim (s : String) : String :=
  ⟨((s.data.dropWhile Char.isWhitespace).reverse.dropWhile Char.isWhitespace).reverse⟩

/-- The bookkeeping `processChunk` performs on every flush that finds a
nonempty buffer, before the size check: clear the previous error, snapshot
and clear the buffer, record this flush time, bump the chunk counter. -/
def flushStateBase (s : RecState) (currentTime : Nat) : RecState :=
  { s with error := none, chunks := [], lastChunkTime := currentTime,
           chunkCount := s.chunkCount + 1 }

/-- What one `processChunk` run produced: the successor state, the segment
submitted to the transcription service (if any), and the result delivered
to the caller's callback (if any). -/
structure FlushOutput where
  state : RecState
  submitted : Option AudioSegment
  delivered : Option TranscriptionResult
deriving Repr, DecidableEq

/-- `processChunk` from the AudioRecorder component, parameterized by the
configured transcription service (a pure function from segment to
outcome). Early-returns on an empty buffer; otherwise snapshots and
clears the buffer, discards the segment if its duration is under 500 ms
or its payload under 100 bytes, and otherwise submits it: on success the
result is delivered through the callback only when its trimmed text is
nonempty (annotated with the chunk number); on failure the error message
is surfaced and nothing is delivered. -/
def processChunk (service : AudioSegment → Except String TranscriptionResult)
    (currentTime : Nat) (s : RecState) : FlushOutput :=
  if s.chunks.isEmpty then
    { state := s, submitted := none, delivered := none }
  else if currentTime - flushStart s < 500 ∨ createAudioBlob s.chunks < 100 then
    { state := flushStateBase s currentTime, submitted := none, delivered := none }
  else
    match service (flushSegment s currentTime) with
    | .ok result =>
        if jsTrim result.text ≠ "" then
          { state := { flushStateBase s currentTime with
              transcriptions := handleTranscriptionUpdate s.transcriptions
                (annotateChunk result (s.chunkCount + 1)) },
            submitted := some (flushSegment s currentTime),
            delivered := some (annotateChunk result (s.chunkCount + 1)) }
        else
          { state := flushStateBase s currentTime,
            submitted := some (flushSegment s currentTime),
            delivered := none }
    | .error e =>
        { state := { flushStateBase s currentTime with error := some e },
          submitted := some (flushSegment s currentTime),
          delivered := none }

/-- The recorder's `ondataavailable` handler: a fragment is buffered only
when its size is positive. -/
def onDataAvailable (s : RecState) (dataSize : Nat) : RecState :=
  if 0 < dataSize then { s with chunks := s.chunks ++ [dataSize] } else s

/-- The state `startRecording` establishes at time `now`: fresh buffer,
`startTimeRef = lastChunkTimeRef = now`, counter reset, error cleared,
timer installed, recording flag set; the caller's list starts empty. -/
def startRecordingState (now : Nat) : RecState :=
  { isRecording := true, timerActive := true, chunks := [],
    startTime := now, lastChunkTime := now, chunkCount := 0,
    error := none, transcriptions := [] }

/-- An externally triggered recorder event: a fragment arrival
(`ondataavailable`) or a `processChunk` run (a timer tick that found a
nonempty buffer, or the final flush scheduled by `stopRecording`). -/
inductive RecEvent where
  | frag (size : Nat) : RecEvent
  | flush : RecEvent
deriving Repr, DecidableEq

/-- Run a timestamped event trace, collecting the segments submitted to
the transcription service in order. -/
def runEvents (service : AudioSegment → Except String TranscriptionResult) :
    RecState → List (Nat × RecEvent) → RecState × List AudioSegment
  | s, [] => (s, [])
  | s, (_, .frag n) :: rest => runEvents service (onDataAvailable s n) rest
  | s, (t, .flush) :: rest =>
      let out := processChunk service t s
      let tail := runEvents service out.state rest
      (tail.1, out.submitted.toList ++ tail.2)

/-- The mock service in the recorder's service-function shape. -/
def mockService (seg : AudioSegment) : Except String TranscriptionResult :=
  .ok ((MockTranscriptionService.transcribe ⟨⟩ seg).2)

/-- The spec's reference run: recording starts at t=0 with the default
6000 ms chunk interval; the host recorder (started with a 500 ms
timeslice) emits a 4000-byte fragment every 500 ms; the timer fires at
t=6000 and t=12000 (each finding a nonempty buffer); `stopRecording` at
t=13000 cancels the timer and requests the final fragment, and its
settling `setTimeout(..., 1000)` runs the last flush at t=14000. -/
def scenarioEvents : List (Nat × RecEvent) :=
  ((List.range 12).map fun i => (500 * (i + 1), RecEvent.frag 4000)) ++
  [(6000, RecEvent.flush)] ++
  ((List.range 12).map fun i => (6500 + 500 * i, RecEvent.frag 4000)) ++
  [(12000, RecEvent.flush)] ++
  [(12500, RecEvent.frag 4000), (13000, RecEvent.frag 4000)] ++
  [(14000, RecEvent.flush)]

/-- Final state and submitted segments of the reference run, under the
mock service. -/
def scenarioRun : RecState × List AudioSegment :=
  runEvents mockService (startRecordingState 0) scenarioEvents

/-- `SilenceDetector` from `audioProcessing`: configured volume threshold
and minimum silence duration, plus the mutable currently-silent flag and
the timestamp silence began. -/
structure SilenceDetector where
  silenceThreshold : ℚ
  minSilenceLength : Nat
  isSilent : Bool
  silenceStartTime : Nat
deriving Repr, DecidableEq

/-- The `SilenceDetector` constructor (defaults: threshold 0.01, minimum
length 1000 ms). -/
def SilenceDetector.create (silenceThreshold : ℚ) (minSilenceLength : Nat) :
    SilenceDetector :=
  { silenceThreshold := silenceThreshold, minSilenceLength := minSilenceLength,
    isSilent := false, silenceStartTime := 0 }

/-- `SilenceDetector.detectSilence(volume, currentTime)`: returns the
boolean result paired with the successor state. Sound-to-silence records
the silence start and returns false; silence-to-sound resets the flag and
returns false; continued silence returns whether the span has reached the
minimum length. -/
def SilenceDetector.detectSilence (d : SilenceDetector) (volume : ℚ)
    (currentTime : Nat) : Bool × SilenceDetector :=
  let isSilentNow := decide (volume < d.silenceThreshold)
  if !d.isSilent && isSilentNow then
    (false, { d with isSilent := true, silenceStartTime := currentTime })
  else if d.isSilent && !isSilentNow then
    (false, { d with isSilent := false })
  else if d.isSilent && decide (d.minSilenceLength ≤ currentTime - d.silenceStartTime) then
    (true, d)
  else
    (false, d)

/-- `SilenceDetector.reset`. -/
def SilenceDetector.reset (d : SilenceDetector) : SilenceDetector :=
  { d with isSilent := false, silenceStartTime := 0 }

/-- Run the detector over a sequence of `(volume, currentTime)` calls,
collecting the returned booleans in order. -/
def runDetector (d : SilenceDetector) :
    List (ℚ × Nat) → List Bool × SilenceDetector
  | [] => ([], d)
  | c :: rest =>
      let step := d.detectSilence c.1 c.2
      let tail := runDetector step.2 rest
      (step.1 :: tail.1, tail.2)

/-- A recorder state mid-recording with one 200-byte fragment buffered,
recording having started at t=0. -/
def flushTestState : RecState :=
  { isRecording := true, timerActive := true, chunks := [200], startTime := 0,
    lastChunkTime := 0, chunkCount := 0, error := none, transcriptions := [] }

/-- Like `flushTestState` but with a single 50-byte fragment, below the
100-byte payload minimum. -/
def tinyTestState : RecState :=
  { flushTestState with chunks := [50] }

/-- A successful response whose JSON text field is empty. -/
def emptyTextOkResponse : HttpResponse :=
  { ok := true, status := 200, body := "", textField := "" }

/-- A successful response whose JSON text field is `hello`. -/
def helloOkResponse : HttpResponse :=
  { ok := true, status := 200, body := "", textField := "hello" }

/-- A failed response: HTTP 500 with body `boom`. -/
def failResponse : HttpResponse :=
  { ok := false, status := 500, body := "boom", textField := "" }

/-- The remote service against a server that replies with empty text. -/
def svcEmptyText (seg : AudioSegment) : Except String TranscriptionResult :=
  WhisperTranscriptionService.transcribe ⟨"sk-test"⟩ seg emptyTextOkResponse

/-- The remote service against a server that replies with `hello`. -/
def svcHello (seg : AudioSegment) : Except String TranscriptionResult :=
  WhisperTranscriptionService.transcribe ⟨"sk-test"⟩ seg helloOkResponse

/-- The remote service against a server that fails with HTTP 500. -/
def svcFail (seg : AudioSegment) : Except String TranscriptionResult :=
  WhisperTranscriptionService.transcribe ⟨"sk-test"⟩ seg failResponse

/- ------------------------------------------------------------------ -/
/- Helper lemmas                                                       -/
/- ------------------------------------------------------------------ -/

/-- A flush of a nonempty buffer that passes the duration and size checks
always submits exactly the segment `flushSegment s t`, whatever the
service then does with it. -/
theorem processChunk_submits
    (service : AudioSegment → Except String TranscriptionResult)
    (t : Nat) (s : RecState)
    (hne : s.chunks.isEmpty = false)
    (hbig : ¬(t - flushStart s < 500 ∨ createAudioBlob s.chunks < 100)) :
    (processChunk service t s).submitted = some (flushSegment s t) := by
  unfold processChunk
  rw [hne]
  simp only [Bool.false_eq_true, if_false, if_neg hbig]
  cases h : service (flushSegment s t) with
  | ok result =>
      by_cases ht : jsTrim result.text ≠ "" <;> simp [ht]
  | error e => rfl

/-- Conversely, whenever a flush submits a segment, that segment is
`flushSegment s t`: payload is the concatenated buffer, start bound is
the previous flush time (or the recording start), end bound is the time
the flush runs. -/
theorem processChunk_submitted_bounds
    (service : AudioSegment → Except String TranscriptionResult)
    (t : Nat) (s : RecState) (seg : AudioSegment)
    (h : (processChunk service t s).submitted = some seg) :
    seg = flushSegment s t := by
  unfold processChunk at h
  split at h
  · simp at h
  · split at h
    · simp at h
    · split at h
      · split at h <;> simp_all
      · simp_all

/-- Sound-to-silence transition: from a non-silent state a sub-threshold
volume records the silence start and returns false. -/
theorem detectSilence_enter (d : SilenceDetector) (v : ℚ) (t : Nat)
    (hs : d.isSilent = false) (hv : v < d.silenceThreshold) :
    d.detectSilence v t
      = (false, { d with isSilent := true, silenceStartTime := t }) := by
  simp [SilenceDetector.detectSilence, hs, hv]

/-- Continued silence: from a silent state a sub-threshold volume leaves
the state unchanged and returns whether the silence span has reached the
minimum length. -/
theorem detectSilence_stay (d : SilenceDetector) (v : ℚ) (t : Nat)
    (hs : d.isSilent = true) (hv : v < d.silenceThreshold) :
    d.detectSilence v t
      = (decide (d.minSilenceLength ≤ t - d.silenceStartTime), d) := by
  by_cases hL : d.minSilenceLength ≤ t - d.silenceStartTime <;>
    simp [SilenceDetector.detectSilence, hs, hv, hL]

/-- Silence-to-sound transition: from a silent state an at-or-above
threshold volume clears the flag and returns false. -/
theorem detectSilence_exit (d : SilenceDetector) (v : ℚ) (t : Nat)
    (hs : d.isSilent = true) (hv : d.silenceThreshold ≤ v) :
    d.detectSilence v t = (false, { d with isSilent := false }) := by
  simp [SilenceDetector.detectSilence, hs, not_lt.mpr hv]

/-- One step of `runDetector` (components spelled out). -/
theorem runDetector_cons (d : SilenceDetector) (c : ℚ × Nat)
    (rest : List (ℚ × Nat)) :
    runDetector d (c :: rest)
      = ((d.detectSilence c.1 c.2).1
            :: (runDetector (d.detectSilence c.1 c.2).2 rest).1,
         (runDetector (d.detectSilence c.1 c.2).2 rest).2) := rfl

/-- `runDetector` over an appended trace runs the two halves in
sequence. -/
theorem runDetector_append (d : SilenceDetector) (xs ys : List (ℚ × Nat)) :
    runDetector d (xs ++ ys)
      = ((runDetector d xs).1 ++ (runDetector (runDetector d xs).2 ys).1,
         (runDetector (runDetector d xs).2 ys).2) := by
  induction xs generalizing d with
  | nil => simp [runDetector]
  | cons c rest ih => simp [runDetector_cons, ih]

/-- Running a silent-state detector over calls that all stay below the
threshold leaves the state untouched and answers, for each call, whether
the time elapsed since the recorded silence start has reached the
minimum length. -/
theorem runDetector_silent (d : SilenceDetector) (calls : List (ℚ × Nat))
    (hs : d.isSilent = true)
    (hcalls : ∀ c ∈ calls, c.1 < d.silenceThreshold) :
    runDetector d calls
      = (calls.map fun c =>
           decide (d.minSilenceLength ≤ c.2 - d.silenceStartTime), d) := by
  induction calls with
  | nil => simp [runDetector]
  | cons c rest ih =>
      have hc : c.1 < d.silenceThreshold := hcalls c (List.mem_cons_self c rest)
      have hrest : ∀ x ∈ rest, x.1 < d.silenceThreshold :=
        fun x hx => hcalls x (List.mem_cons_of_mem c hx)
      rw [runDetector_cons, detectSilence_stay d c.1 c.2 hs hc]
      simp [ih hrest]

/- ------------------------------------------------------------------ -/
/- Claims                                                              -/
/- ------------------------------------------------------------------ -/

/-- Claim C1: for every flush, if the resulting segment's duration
(`endTime - startTime`) is below 500 ms or its concatenated payload size
is below 100 bytes, the segment is discarded: the transcription service
is never called on it and no result is delivered to the caller. -/
theorem claim1_small_flush_discarded
    (service : AudioSegment → Except String TranscriptionResult)
    (t : Nat) (s : RecState)
    (htiny : t - flushStart s < 500 ∨ createAudioBlob s.chunks < 100) :
    (processChunk service t s).submitted = none ∧
    (processChunk service t s).delivered = none ∧
    (processChunk service t s).state.transcriptions = s.transcriptions := by
  by_cases hc : s.chunks.isEmpty
  · simp [processChunk, hc]
  · simp [processChunk, hc, htiny, flushStateBase]

/-- Witness for C1 at a concrete input: a 50-byte flush at t=1000 is
discarded. -/
theorem claim1_small_flush_discarded_witness :
    (processChunk mockService 1000 tinyTestState).submitted = none ∧
    (processChunk mockService 1000 tinyTestState).delivered = none ∧
    (processChunk mockService 1000 tinyTestState).state.transcriptions = [] :=
  claim1_small_flush_discarded mockService 1000 tinyTestState (by decide)

/-- Claim C2 counterexample: in the reference run the flushes produce
segments [0,6000], [6000,12000] and [12000,14000] — the stop at t=13000
only schedules the final flush, which runs after the 1000 ms settling
delay and stamps its own execution time as the end bound, so the claimed
final segment [12000,13000] is wrong. -/
theorem claim2_stop_flush_counterexample :
    (scenarioRun.2.map fun g => (g.startTime, g.endTime))
      = [(0, 6000), (6000, 12000), (12000, 14000)] ∧
    (scenarioRun.2.map fun g => (g.startTime, g.endTime))
      ≠ [(0, 6000), (6000, 12000), (12000, 13000)] :=
  ⟨rfl, by decide⟩

/-- Claim C2 (amended): in the reference run the flush at t=6000 produces
[0,6000], the flush at t=12000 produces [6000,12000], and the stop at
t=13000 triggers exactly one final flush which runs after the 1000 ms
settling delay, at t=14000, producing [12000,14000]; in general every
submitted segment's bounds are [time of previous flush (or recording
start), time at which this flush executes]. -/
theorem claim2_segment_bounds
    (service : AudioSegment → Except String TranscriptionResult)
    (t : Nat) (s : RecState) (seg : AudioSegment)
    (h : (processChunk service t s).submitted = some seg) :
    (scenarioRun.2.map fun g => (g.startTime, g.endTime))
      = [(0, 6000), (6000, 12000), (12000, 14000)] ∧
    seg.startTime = flushStart s ∧ seg.endTime = t := by
  have hb := processChunk_submitted_bounds service t s seg h
  exact ⟨rfl, by rw [hb]; rfl, by rw [hb]; rfl⟩

/-- Witness for C2 (amended) at a concrete input: a 200-byte flush at
t=1000 from a recording started at t=0 submits a segment with bounds
[0,1000]. -/
theorem claim2_segment_bounds_witness :
    (flushSegment flushTestState 1000).startTime = flushStart flushTestState ∧
    (flushSegment flushTestState 1000).endTime = 1000 :=
  (claim2_segment_bounds mockService 1000 flushTestState
    (flushSegment flushTestState 1000) rfl).2

/-- Claim C3: the factory is a pure selection over (useMock, credential):
useMock always yields the mock; an empty credential without useMock
yields the mock (never a failure); a nonempty credential without useMock
yields the remote service configured with that credential. Both the
`createTranscriptionService` helper and the `getTranscriptionService`
factory select this way. -/
theorem claim3_factory_selection (key : String) (hkey : key ≠ "") :
    (∀ k : String, createTranscriptionService k true = .mock) ∧
    createTranscriptionService "" false = .mock ∧
    createTranscriptionService key false = .whisper key ∧
    (∀ k : String, getTranscriptionService k true = .mock) ∧
    getTranscriptionService "" false = .mock ∧
    getTranscriptionService key false = .whisper key := by
  refine ⟨fun k => rfl, rfl, ?_, fun k => rfl, rfl, ?_⟩ <;>
    simp [createTranscriptionService, getTranscriptionService, hkey]

/-- Witness for C3 at a concrete credential. -/
theorem claim3_factory_selection_witness :
    createTranscriptionService "sk-abc" false = .whisper "sk-abc" ∧
    getTranscriptionService "sk-abc" false = .whisper "sk-abc" :=
  ⟨(claim3_factory_selection "sk-abc" (by decide)).2.2.1,
   (claim3_factory_selection "sk-abc" (by decide)).2.2.2.2.2⟩

/-- Claim C4: whenever a transcribe call succeeds — remote or mock — the
returned result's startTime and endTime are exactly the submitted
segment's, regardless of the response content. -/
theorem claim4_timestamps_preserved (svc : WhisperTranscriptionService)
    (seg : AudioSegment) (resp : HttpResponse) (r : TranscriptionResult)
    (h : svc.transcribe seg resp = .ok r) :
    (r.startTime = seg.startTime ∧ r.endTime = seg.endTime) ∧
    ∀ (m : MockTranscriptionService) (seg2 : AudioSegment),
      (m.transcribe seg2).2.startTime = seg2.startTime ∧
      (m.transcribe seg2).2.endTime = seg2.endTime := by
  refine ⟨?_, fun m seg2 => ⟨rfl, rfl⟩⟩
  unfold WhisperTranscriptionService.transcribe at h
  split at h
  · simp at h
  · split at h
    · simp at h
    · rw [Except.ok.injEq] at h
      subst h
      exact ⟨rfl, rfl⟩

/-- Witness for C4 at a concrete input: a successful remote call on a
segment [5,9] returns a result stamped [5,9]. -/
theorem claim4_timestamps_preserved_witness :
    ({ text := "hello", startTime := 5, endTime := 9 } :
        TranscriptionResult).startTime = 5 ∧
    ({ text := "hello", startTime := 5, endTime := 9 } :
        TranscriptionResult).endTime = 9 :=
  (claim4_timestamps_preserved ⟨"sk-test"⟩ ⟨10, 5, 9⟩ helloOkResponse
    { text := "hello", startTime := 5, endTime := 9 } rfl).1

/-- Claim C5 counterexample: a non-discarded segment whose transcribe
call succeeds with an empty text is NOT delivered — the success handler
guards on `result.text.trim()`, so the callback is never invoked and the
caller's list stays empty, contradicting "invoked exactly once ... whose
text may be an empty string". -/
theorem claim5_empty_text_counterexample :
    svcEmptyText (flushSegment flushTestState 1000)
      = .ok { text := "", startTime := 0, endTime := 1000 } ∧
    (processChunk svcEmptyText 1000 flushTestState).submitted
      = some (flushSegment flushTestState 1000) ∧
    (processChunk svcEmptyText 1000 flushTestState).delivered = none ∧
    (processChunk svcEmptyText 1000 flushTestState).state.transcriptions = [] :=
  ⟨rfl, rfl, rfl, rfl⟩

/-- Claim C5 (amended): for every completed, non-discarded segment whose
transcribe call succeeds, the callback is invoked exactly once — with the
result annotated with the segment's sequence number and appended to the
caller's list — provided the result's trimmed text is nonempty; a
successful result whose text is empty or whitespace-only is dropped
silently without invoking the callback. -/
theorem claim5_delivery
    (service : AudioSegment → Except String TranscriptionResult)
    (t : Nat) (s : RecState) (r : TranscriptionResult)
    (hne : s.chunks.isEmpty = false)
    (hbig : ¬(t - flushStart s < 500 ∨ createAudioBlob s.chunks < 100))
    (hok : service (flushSegment s t) = .ok r) :
    (jsTrim r.text ≠ "" →
      (processChunk service t s).delivered
        = some (annotateChunk r (s.chunkCount + 1)) ∧
      (processChunk service t s).state.transcriptions
        = handleTranscriptionUpdate s.transcriptions
            (annotateChunk r (s.chunkCount + 1))) ∧
    (jsTrim r.text = "" →
      (processChunk service t s).delivered = none ∧
      (processChunk service t s).state.transcriptions = s.transcriptions) := by
  unfold processChunk
  rw [hne]
  simp only [Bool.false_eq_true, if_false, if_neg hbig, hok]
  constructor
  · intro ht
    simp [ht]
  · intro ht
    simp [ht, flushStateBase]

/-- Witness for C5 (amended) at a concrete input: a successful call
returning `hello` is delivered once, annotated as chunk #1. -/
theorem claim5_delivery_witness :
    (processChunk svcHello 1000 flushTestState).delivered
      = some (annotateChunk { text := "hello", startTime := 0, endTime := 1000 } 1) ∧
    (processChunk svcHello 1000 flushTestState).state.transcriptions
      = handleTranscriptionUpdate []
          (annotateChunk { text := "hello", startTime := 0, endTime := 1000 } 1) :=
  (claim5_delivery svcHello 1000 flushTestState
    { text := "hello", startTime := 0, endTime := 1000 } rfl (by decide) rfl).1
    (by decide)

/-- Claim C6: a failed transcribe call is caught per-segment: the error
message is surfaced, nothing is delivered, the recording flag and the
chunk timer are untouched, the caller's list is unchanged, and the flush
leaves the recorder in the ordinary post-flush state (buffer cleared, no
retry of the dropped segment); any later flush of fresh fragments from
that state submits its segment normally. -/
theorem claim6_failure_isolated
    (service : AudioSegment → Except String TranscriptionResult)
    (t : Nat) (s : RecState) (e : String)
    (hne : s.chunks.isEmpty = false)
    (hbig : ¬(t - flushStart s < 500 ∨ createAudioBlob s.chunks < 100))
    (herr : service (flushSegment s t) = .error e) :
    (processChunk service t s).state = { flushStateBase s t with error := some e } ∧
    (processChunk service t s).state.error = some e ∧
    (processChunk service t s).state.isRecording = s.isRecording ∧
    (processChunk service t s).state.timerActive = s.timerActive ∧
    (processChunk service t s).state.transcriptions = s.transcriptions ∧
    (processChunk service t s).delivered = none ∧
    (∀ (service2 : AudioSegment → Except String TranscriptionResult)
        (t2 : Nat) (cs : List Nat),
      cs.isEmpty = false →
      ¬(t2 - flushStart { (processChunk service t s).state with chunks := cs } < 500
          ∨ createAudioBlob cs < 100) →
      (processChunk service2 t2
          { (processChunk service t s).state with chunks := cs }).submitted
        = some (flushSegment
            { (processChunk service t s).state with chunks := cs } t2)) := by
  have hmain : processChunk service t s
      = { state := { flushStateBase s t with error := some e },
          submitted := some (flushSegment s t), delivered := none } := by
    unfold processChunk
    rw [hne]
    simp only [Bool.false_eq_true, if_false, if_neg hbig, herr]
  rw [hmain]
  refine ⟨rfl, rfl, rfl, rfl, rfl, rfl, ?_⟩
  intro service2 t2 cs hne2 hbig2
  exact processChunk_submits service2 t2 _ hne2 hbig2

/-- Witness for C6 at a concrete input: an HTTP 500 surfaces its message,
delivers nothing, and leaves the recording flag set. -/
theorem claim6_failure_isolated_witness :
    (processChunk svcFail 1000 flushTestState).state.error
      = some "Transcription failed (500): boom" ∧
    (processChunk svcFail 1000 flushTestState).state.isRecording = true ∧
    (processChunk svcFail 1000 flushTestState).delivered = none :=
  ⟨(claim6_failure_isolated svcFail 1000 flushTestState
      "Transcription failed (500): boom" rfl (by decide) rfl).2.1,
   (claim6_failure_isolated svcFail 1000 flushTestState
      "Transcription failed (500): boom" rfl (by decide) rfl).2.2.1,
   (claim6_failure_isolated svcFail 1000 flushTestState
      "Transcription failed (500): boom" rfl (by decide) rfl).2.2.2.2.2.1⟩

/-- Claim C7: a flush whose payload is empty or below the minimum size is
handled before submission, locally and silently — no transcribe call, no
delivery, and no user-visible error is set (the error field is either
left alone or cleared, never populated); and the remote variant's own
guard rejects an empty payload with the "Empty audio blob" error. -/
theorem claim7_empty_payload_silent
    (service : AudioSegment → Except String TranscriptionResult)
    (t : Nat) (s : RecState)
    (htiny : t - flushStart s < 500 ∨ createAudioBlob s.chunks < 100)
    (wsvc : WhisperTranscriptionService) (seg : AudioSegment)
    (resp : HttpResponse) (hempty : seg.blobSize = 0) :
    (processChunk service t s).submitted = none ∧
    (processChunk service t s).delivered = none ∧
    ((processChunk service t s).state.error = none ∨
      (processChunk service t s).state.error = s.error) ∧
    wsvc.transcribe seg resp = .error "Empty audio blob" := by
  by_cases hc : s.chunks.isEmpty
  · exact ⟨by simp [processChunk, hc], by simp [processChunk, hc],
      .inr (by simp [processChunk, hc]),
      by simp [WhisperTranscriptionService.transcribe, hempty]⟩
  · exact ⟨by simp [processChunk, hc, htiny], by simp [processChunk, hc, htiny],
      .inl (by simp [processChunk, hc, htiny, flushStateBase]),
      by simp [WhisperTranscriptionService.transcribe, hempty]⟩

/-- Witness for C7 at a concrete input: a 50-byte flush is skipped
silently and the remote guard rejects a zero-byte segment. -/
theorem claim7_empty_payload_silent_witness :
    (processChunk mockService 1000 tinyTestState).submitted = none ∧
    (processChunk mockService 1000 tinyTestState).delivered = none ∧
    ((processChunk mockService 1000 tinyTestState).state.error = none ∨
      (processChunk mockService 1000 tinyTestState).state.error = none) ∧
    WhisperTranscriptionService.transcribe ⟨"sk-test"⟩ ⟨0, 0, 1000⟩ helloOkResponse
      = .error "Empty audio blob" :=
  claim7_empty_payload_silent mockService 1000 tinyTestState (by decide)
    ⟨"sk-test"⟩ ⟨0, 0, 1000⟩ helloOkResponse rfl

/-- Claim C8: for every valid segment the mock service never fails — it
always completes after its fixed 500 ms delay with a result carrying the
segment's own timestamps, whose text is a deterministic function of the
segment's duration and start time. -/
theorem claim8_mock_total (m : MockTranscriptionService) (seg : AudioSegment)
    (_hvalid : seg.startTime ≤ seg.endTime) :
    mockService seg
      = .ok { text := mockText seg, startTime := seg.startTime,
              endTime := seg.endTime } ∧
    m.transcribe seg
      = (mockDelayMs, { text := mockText seg, startTime := seg.startTime,
                        endTime := seg.endTime }) ∧
    mockDelayMs = 500 ∧
    ∀ seg2 : AudioSegment, seg2.startTime = seg.startTime →
      seg2.endTime - seg2.startTime = seg.endTime - seg.startTime →
      mockText seg2 = mockText seg := by
  refine ⟨rfl, rfl, rfl, fun seg2 h1 h2 => ?_⟩
  unfold mockText
  rw [h2, h1]

/-- Witness for C8 at a concrete input: a 6-second segment. -/
theorem claim8_mock_total_witness :
    mockService ⟨48000, 0, 6000⟩
      = .ok { text := mockText ⟨48000, 0, 6000⟩, startTime := 0,
              endTime := 6000 } ∧
    mockDelayMs = 500 :=
  ⟨(claim8_mock_total ⟨⟩ ⟨48000, 0, 6000⟩ (by decide)).1,
   (claim8_mock_total ⟨⟩ ⟨48000, 0, 6000⟩ (by decide)).2.2.1⟩

/-- Claim C9: for a freshly constructed detector with threshold T and
positive minimum silence length L, on a call sequence whose volumes stay
below T and then rise above T, the first (transition) call returns false,
every later silent call at time t returns true exactly when t is at or
after L ms of continuous silence (so false on every call before that
point and true on every call at or after it — idempotently), and the
call that rises above T returns false; moreover once the threshold is
crossed, any repeated call while still silent returns true and leaves
the state unchanged. -/
theorem claim9_silence_sequence (T : ℚ) (L : Nat) (_hL : 0 < L)
    (v0 : ℚ) (t0 : Nat) (rest : List (ℚ × Nat)) (vr : ℚ) (tr : Nat)
    (hv0 : v0 < T)
    (hrest : ∀ c ∈ rest, c.1 < T)
    (hvr : T < vr) :
    (runDetector (SilenceDetector.create T L)
        ((v0, t0) :: (rest ++ [(vr, tr)]))).1
      = false :: ((rest.map fun c => decide (L ≤ c.2 - t0)) ++ [false]) ∧
    ∀ (d : SilenceDetector) (v : ℚ) (t : Nat),
      d.isSilent = true → v < d.silenceThreshold →
      d.minSilenceLength ≤ t - d.silenceStartTime →
      d.detectSilence v t = (true, d) := by
  constructor
  · have h0 : (SilenceDetector.create T L).detectSilence v0 t0
        = (false, { SilenceDetector.create T L with
            isSilent := true, silenceStartTime := t0 }) :=
      detectSilence_enter _ v0 t0 rfl hv0
    have h1 : runDetector
        { SilenceDetector.create T L with
          isSilent := true, silenceStartTime := t0 } rest
        = (rest.map fun c => decide (L ≤ c.2 - t0),
           { SilenceDetector.create T L with
             isSilent := true, silenceStartTime := t0 }) :=
      runDetector_silent _ rest rfl (fun c hc => hrest c hc)
    have h2 : ({ SilenceDetector.create T L with
          isSilent := true, silenceStartTime := t0 } :
            SilenceDetector).detectSilence vr tr
        = (false, { SilenceDetector.create T L with
            isSilent := false, silenceStartTime := t0 }) :=
      detectSilence_exit _ vr tr rfl (le_of_lt hvr)
    rw [runDetector_cons]
    simp only [h0, runDetector_append, h1, runDetector_cons, h2, runDetector]
  · intro d v t hs hv hL2
    rw [detectSilence_stay d v t hs hv, decide_eq_true hL2]

/-- Witness for C9 at a concrete input: threshold 1, minimum length
1000 ms, silent calls at t=0, 500, 1000, 1500, then a loud call at
t=1600 — outputs false, false, true, true, false. -/
theorem claim9_silence_sequence_witness :
    (runDetector (SilenceDetector.create 1 1000)
        (((0:ℚ), (0:Nat)) :: ([((0:ℚ), (500:Nat)), (0, 1000), (0, 1500)]
          ++ [((2:ℚ), (1600:Nat))]))).1
      = false :: (([((0:ℚ), (500:Nat)), (0, 1000), (0, 1500)].map
          fun c => decide (1000 ≤ c.2 - 0)) ++ [false]) :=
  (claim9_silence_sequence 1 1000 (by decide) 0 0
    [((0:ℚ), (500:Nat)), (0, 1000), (0, 1500)] 2 1600
    (by decide) (by decide) (by decide)).1

/-- Claim C10: the detector never reports silence while sound is present:
for every detector state, a call whose volume is at or above the silence
threshold returns false. -/
theorem claim10_no_silence_when_loud (d : SilenceDetector) (v : ℚ) (t : Nat)
    (hv : d.silenceThreshold ≤ v) :
    (d.detectSilence v t).1 = false := by
  cases hs : d.isSilent <;>
    simp [SilenceDetector.detectSilence, hs, not_lt.mpr hv]

/-- Witness for C10 at a concrete input: a volume equal to the threshold
is not silence. -/
theorem claim10_no_silence_when_loud_witness :
    ((SilenceDetector.create 1 1000).detectSilence 1 0).1 = false :=
  claim10_no_silence_when_loud (SilenceDetector.create 1 1000) 1 0 (by decide)

end JamieAI
